import Mathlib

/-!
Shallow embedding of `GAIN/components/Generator.py`.

Tensors are 2-D rational matrices `Fin m → Fin n → ℚ` (TensorFlow float
tensors modelled over `ℚ`).  Randomness (`tf.random.uniform`) is modelled
by passing the drawn noise tensor as an explicit argument; `tf.math.log`
is modelled by an abstract function `log : ℚ → ℚ` passed as a parameter;
automatic differentiation (`tape.gradient`) and the optimizer
(`optimizer.apply_gradients`) are modelled by abstract functions supplied
by the caller, exactly as they are external collaborators of the source.
-/

namespace GAIN

/-- A 2-D tensor with `m` rows and `n` columns, over `ℚ`. -/
abbrev Tensor (m n : ℕ) : Type := Fin m → Fin n → ℚ

/-- Elementwise (Hadamard) product, TensorFlow `a * b`. -/
def hadamard {m n : ℕ} (a b : Tensor m n) : Tensor m n :=
  fun i j => a i j * b i j

/-- Elementwise sum, TensorFlow `a + b`. -/
def tadd {m n : ℕ} (a b : Tensor m n) : Tensor m n :=
  fun i j => a i j + b i j

/-- Elementwise difference, TensorFlow `a - b`. -/
def tsub {m n : ℕ} (a b : Tensor m n) : Tensor m n :=
  fun i j => a i j - b i j

/-- TensorFlow broadcast `1 - a`. -/
def oneMinus {m n : ℕ} (a : Tensor m n) : Tensor m n :=
  fun i j => 1 - a i j

/-- Apply a scalar function elementwise (e.g. `tf.math.log`, squaring). -/
def tmap {m n : ℕ} (f : ℚ → ℚ) (a : Tensor m n) : Tensor m n :=
  fun i j => f (a i j)

/-- `tf.reduce_sum`: sum of all entries. -/
def reduceSum {m n : ℕ} (a : Tensor m n) : ℚ :=
  ∑ i, ∑ j, a i j

/-- `tf.reduce_mean`: mean of all entries. -/
def reduceMean {m n : ℕ} (a : Tensor m n) : ℚ :=
  reduceSum a / (m * n)

/-- `tf.concat(axis=1, values=[a, b])`: columnwise concatenation. -/
def concatCols {m n : ℕ} (a b : Tensor m n) : Tensor m (n + n) :=
  fun i j =>
    if h : (j : ℕ) < n then a i ⟨j, h⟩
    else b i ⟨(j : ℕ) - n, by omega⟩

/-- `get_generator_logLoss(discriminations, mask)` from `Generator.py`:
`-tf.reduce_sum((1-mask) * tf.math.log(discriminations + 1e-8)) / tf.reduce_sum(1-mask)`.
`log` abstracts `tf.math.log`. -/
def get_generator_logLoss {m n : ℕ} (log : ℚ → ℚ)
    (discriminations mask : Tensor m n) : ℚ :=
  -reduceSum (hadamard (oneMinus mask)
      (tmap (fun d => log (d + 1 / 100000000)) discriminations))
    / reduceSum (oneMinus mask)

/-- `get_test_mask(x)` from `Generator.py`: tiles one row made of `n-1`
ones followed by a single zero, giving a mask that hides exactly the last
column of every row. -/
def get_test_mask {m n : ℕ} (_x : Tensor m n) : Tensor m n :=
  fun _i j => if (j : ℕ) < n - 1 then 1 else 0

/-- `get_last_column(x)` from `Generator.py`:
`tf.gather(x, [tf.shape(x)[1]-1], axis=1)`, the last column as an `m × 1`
tensor.  For `n = 0` the gather index is out of range (a framework error);
the embedding returns `0` there and claims only quantify over `0 < n`. -/
def get_last_column {m n : ℕ} (x : Tensor m n) : Tensor m 1 :=
  fun i _ => if h : n - 1 < n then x i ⟨n - 1, h⟩ else 0

/-- `get_generated_value_errors(mask, hint_mask, x, generated_x)` from
`Generator.py`: `tf.gather_nd(generated_x - x, tf.where((1-mask)*(1-hint_mask)))`.
`tf.where` lists, in row-major order, the coordinates whose condition entry
is nonzero; the gather collects `generated_x - x` at those coordinates. -/
def get_generated_value_errors {m n : ℕ}
    (mask hint_mask x generated_x : Tensor m n) : List ℚ :=
  (List.finRange m).flatMap fun i =>
    (List.finRange n).filterMap fun j =>
      if (1 - mask i j) * (1 - hint_mask i j) ≠ 0
      then some (generated_x i j - x i j) else none

/-- `get_total_generator_truth_error(data_batch, generated_data, mask)` from
`Generator.py`:
`tf.reduce_sum(mask*(data_batch-generated_data)**2) / tf.reduce_sum(mask)`. -/
def get_total_generator_truth_error {m n : ℕ}
    (data_batch generated_data mask : Tensor m n) : ℚ :=
  reduceSum (hadamard mask (tmap (fun v => v ^ 2) (tsub data_batch generated_data)))
    / reduceSum mask

/-- The body of `myGenerator.generate`: `masked_x = mask*x`,
`masked_sample = (1-mask)*U` with `U` the uniform draw (here the explicit
`noise` argument), then the body applied to
`tf.concat(axis=1, [masked_x+masked_sample, mask])`. -/
def generate {m n : ℕ} (body : Tensor m (n + n) → Tensor m n)
    (x mask noise : Tensor m n) : Tensor m n :=
  body (concatCols (tadd (hadamard mask x) (hadamard (oneMinus mask) noise)) mask)

/-- A Keras-model body: trainable variables `params` of abstract type `P`
and a call function depending on them.  `body.trainable_variables` is
`params`; `self.body(t)` is `call params t`. -/
structure KerasModel (P : Type) (m n : ℕ) where
  params : P
  call : P → Tensor m (n + n) → Tensor m n

/-- The body slot of `myGenerator`: either a plain Python function
(the default `generate_random`, which has no `save` attribute and no
trainable variables) or a Keras model. -/
inductive GenBody (P : Type) (m n : ℕ) where
  | plainFn (f : Tensor m (n + n) → Tensor m n)
  | keras (k : KerasModel P m n)

/-- Calling `self.body(t)` on either kind of body. -/
def GenBody.apply {P : Type} {m n : ℕ} : GenBody P m n → Tensor m (n + n) → Tensor m n
  | .plainFn f, t => f t
  | .keras k, t => k.call k.params t

/-- The `myGenerator` wrapper: its only state is `self.body`. -/
structure myGenerator (P : Type) (m n : ℕ) where
  body : GenBody P m n

/-- `generate_random(input)` from `Generator.py`: splits the input into
`[masked_sample_x, mask]` along axis 1 and returns a fresh uniform draw in
the shape of the first half.  The RNG draw is modelled by the explicit
`noise` argument; the split influences only the (static) shape. -/
def generate_random {m n : ℕ} (noise : Tensor m n) : Tensor m (n + n) → Tensor m n :=
  fun _input => noise

/-- `myGenerator.__init__(self, body=generate_random)`: the
default-constructed generator, whose body is the plain function
`generate_random`. -/
def myGenerator.defaultInit {P : Type} {m n : ℕ} (noise : Tensor m n) :
    myGenerator P m n :=
  ⟨.plainFn (generate_random noise)⟩

/-- `myGenerator.generate(self, x, mask)` from `Generator.py`. -/
def myGenerator.generate {P : Type} {m n : ℕ} (g : myGenerator P m n)
    (x mask noise : Tensor m n) : Tensor m n :=
  GAIN.generate g.body.apply x mask noise

/-- A Python `AttributeError`, raised when an attribute lookup fails
(e.g. `.save` on a plain function). -/
inductive PyError where
  | attributeError (attr : String)
deriving DecidableEq

/-- `myGenerator.save(self, path)`: `self.body.save(path)`.  A Keras body
delegates to its native `save` (modelled by the abstract `kerasSave`,
returning the externally persisted artifact of type `F`); the default
plain-function body has no `save` attribute, so the call raises
`AttributeError`. -/
def myGenerator.save {P F : Type} {m n : ℕ} (g : myGenerator P m n)
    (kerasSave : KerasModel P m n → String → F) (path : String) :
    Except PyError F :=
  match g.body with
  | .keras k => .ok (kerasSave k path)
  | .plainFn _ => .error (.attributeError "save")

/-- `myGenerator.load(self, path)`:
`self.body = tf.keras.models.load_model(path)`, with the framework loader
modelled by the abstract `load_model`. -/
def myGenerator.load {P : Type} {m n : ℕ} (g : myGenerator P m n)
    (load_model : String → KerasModel P m n) (path : String) :
    myGenerator P m n :=
  { g with body := .keras (load_model path) }

/-- An optimizer: internal slots of abstract type `S` and
`apply_gradients`, which consumes a gradient of abstract type `G` and the
current parameters and yields updated slots and parameters. -/
structure Optimizer (S G P : Type) where
  state : S
  applyGradients : S → G → P → S × P

/-- `myGenerator.train_with_discrimination` from `Generator.py`.
The `GradientTape` is modelled by `grad`, which differentiates the taped
loss — a function of the body's trainable variables only — at the current
parameters.  Returns the loss together with the updated generator and
optimizer (the in-place mutations of the Python code made explicit). -/
def train_with_discrimination {P S G : Type} {m n : ℕ}
    (b : KerasModel P m n) (grad : (P → ℚ) → P → G) (log : ℚ → ℚ)
    (data_batch mask hints noise : Tensor m n)
    (discriminate_fn : Tensor m n → Tensor m n → Tensor m n)
    (optimizer : Optimizer S G P) (_alpha : ℚ) :
    ℚ × KerasModel P m n × Optimizer S G P :=
  let lossAt : P → ℚ := fun p =>
    let generated_data := generate (b.call p) data_batch mask noise
    let adjusted_generated_data :=
      tadd (hadamard generated_data (oneMinus mask)) (hadamard mask data_batch)
    let discriminations := discriminate_fn adjusted_generated_data hints
    get_generator_logLoss log discriminations mask
  let loss := lossAt b.params
  let loss_gradients := grad lossAt b.params
  let sp := optimizer.applyGradients optimizer.state loss_gradients b.params
  (loss, { b with params := sp.2 }, { optimizer with state := sp.1 })

/-- `myGenerator.train_with_critic` from `Generator.py`: same orchestration
with `critic_loss = -tf.reduce_mean(criticise_fn(adjusted, hints))`.  The
critic's output shape `p × q` is unconstrained by the source. -/
def train_with_critic {P S G : Type} {m n p q : ℕ}
    (b : KerasModel P m n) (grad : (P → ℚ) → P → G)
    (data_batch mask hints noise : Tensor m n)
    (criticise_fn : Tensor m n → Tensor m n → Tensor p q)
    (optimizer : Optimizer S G P) (_alpha : ℚ) :
    ℚ × KerasModel P m n × Optimizer S G P :=
  let lossAt : P → ℚ := fun p' =>
    let generated_data := generate (b.call p') data_batch mask noise
    let adjusted_generated_data :=
      tadd (hadamard generated_data (oneMinus mask)) (hadamard mask data_batch)
    let critics := criticise_fn adjusted_generated_data hints
    Neg.neg (reduceMean critics)
  let critic_loss := lossAt b.params
  let loss_gradients := grad lossAt b.params
  let sp := optimizer.applyGradients optimizer.state loss_gradients b.params
  (critic_loss, { b with params := sp.2 }, { optimizer with state := sp.1 })

/-- A Keras-model body whose call may raise (shape mismatch, NaN guard,
…): the error type `ε` models Python exceptions. -/
structure KerasModelE (ε P : Type) (m n : ℕ) where
  params : P
  call : P → Tensor m (n + n) → Except ε (Tensor m n)

/-- An optimizer whose `apply_gradients` may raise. -/
structure OptimizerE (ε S G P : Type) where
  state : S
  applyGradients : S → G → P → Except ε (S × P)

/-- `train_with_discrimination` with every external call fallible.  The
source wraps nothing in `try`/`except`: each raised exception aborts the
call at the point it occurs, so the translation threads `Except` through
the same sequence of calls — body, scoring function, tape gradient,
optimizer step — and an error anywhere yields that error unchanged, with
no updated generator or optimizer produced. -/
def train_with_discriminationE {ε P S G : Type} {m n : ℕ}
    (b : KerasModelE ε P m n) (grad : (P → Except ε ℚ) → P → Except ε G)
    (log : ℚ → ℚ) (data_batch mask hints noise : Tensor m n)
    (discriminate_fn : Tensor m n → Tensor m n → Except ε (Tensor m n))
    (optimizer : OptimizerE ε S G P) (_alpha : ℚ) :
    Except ε (ℚ × KerasModelE ε P m n × OptimizerE ε S G P) :=
  let lossAt : P → Except ε ℚ := fun p =>
    match b.call p (concatCols
        (tadd (hadamard mask data_batch) (hadamard (oneMinus mask) noise)) mask) with
    | .error e => .error e
    | .ok generated_data =>
      match discriminate_fn
          (tadd (hadamard generated_data (oneMinus mask)) (hadamard mask data_batch))
          hints with
      | .error e => .error e
      | .ok discriminations => .ok (get_generator_logLoss log discriminations mask)
  match lossAt b.params with
  | .error e => .error e
  | .ok loss =>
    match grad lossAt b.params with
    | .error e => .error e
    | .ok loss_gradients =>
      match optimizer.applyGradients optimizer.state loss_gradients b.params with
      | .error e => .error e
      | .ok sp => .ok (loss, { b with params := sp.2 }, { optimizer with state := sp.1 })

/-- `train_with_critic` with every external call fallible, mirroring
`train_with_discriminationE`. -/
def train_with_criticE {ε P S G : Type} {m n p q : ℕ}
    (b : KerasModelE ε P m n) (grad : (P → Except ε ℚ) → P → Except ε G)
    (data_batch mask hints noise : Tensor m n)
    (criticise_fn : Tensor m n → Tensor m n → Except ε (Tensor p q))
    (optimizer : OptimizerE ε S G P) (_alpha : ℚ) :
    Except ε (ℚ × KerasModelE ε P m n × OptimizerE ε S G P) :=
  let lossAt : P → Except ε ℚ := fun p' =>
    match b.call p' (concatCols
        (tadd (hadamard mask data_batch) (hadamard (oneMinus mask) noise)) mask) with
    | .error e => .error e
    | .ok generated_data =>
      match criticise_fn
          (tadd (hadamard generated_data (oneMinus mask)) (hadamard mask data_batch))
          hints with
      | .error e => .error e
      | .ok critics => .ok (Neg.neg (reduceMean critics))
  match lossAt b.params with
  | .error e => .error e
  | .ok critic_loss =>
    match grad lossAt b.params with
    | .error e => .error e
    | .ok loss_gradients =>
      match optimizer.applyGradients optimizer.state loss_gradients b.params with
      | .error e => .error e
      | .ok sp => .ok (critic_loss, { b with params := sp.2 }, { optimizer with state := sp.1 })

/-- The values `myGenerator.performance_log_with_discrimination` writes to
its `tf.summary` sink, one field per `tf.summary.scalar`/`histogram` call,
keyed in source order. -/
structure DiscriminationLog (m : ℕ) where
  generator_loss : ℚ
  know_value_regeneration_error : ℚ
  hidden_value_generation_errors : List ℚ
  generated_last_column_distribution : Tensor m 1
  actual_last_column_distribution : Tensor m 1

/-- `myGenerator.performance_log_with_discrimination` from `Generator.py`.
The two `self.generate` calls each draw fresh noise, modelled by the two
arguments `noiseTest` (for the test-mask generation) and `noise`; the
summary writer is modelled by returning the record of written values. -/
def performance_log_with_discrimination {P : Type} {m n : ℕ}
    (g : myGenerator P m n) (log : ℚ → ℚ)
    (data_batch mask hints hint_mask : Tensor m n)
    (discriminate_fn : Tensor m n → Tensor m n → Tensor m n)
    (noiseTest noise : Tensor m n) : DiscriminationLog m :=
  let generatedLastCol := g.generate data_batch (get_test_mask data_batch) noiseTest
  let generated_data := g.generate data_batch mask noise
  let adjusted_generated_data :=
    tadd (hadamard generated_data (oneMinus mask)) (hadamard mask data_batch)
  let discriminated_probs := discriminate_fn adjusted_generated_data hints
  { generator_loss := get_generator_logLoss log discriminated_probs mask
    know_value_regeneration_error :=
      get_total_generator_truth_error data_batch generated_data mask
    hidden_value_generation_errors :=
      get_generated_value_errors mask hint_mask data_batch generated_data
    generated_last_column_distribution := get_last_column generatedLastCol
    actual_last_column_distribution := get_last_column data_batch }

/-- The values `myGenerator.performance_log_with_critic` writes to its
summary sink, in source order. -/
structure CriticLog (m : ℕ) where
  know_value_regeneration_error : ℚ
  critic_loss : ℚ
  genuine_critics_mean : ℚ
  generated_critics_mean : ℚ
  hidden_value_generation_errors : List ℚ
  generated_last_column_distribution : Tensor m 1
  actual_last_column_distribution : Tensor m 1

/-- `myGenerator.performance_log_with_critic` from `Generator.py`, with the
critic's output shape `p × q` unconstrained. -/
def performance_log_with_critic {P : Type} {m n p q : ℕ}
    (g : myGenerator P m n)
    (data_batch mask hints hint_mask : Tensor m n)
    (criticise_fn : Tensor m n → Tensor m n → Tensor p q)
    (noiseTest noise : Tensor m n) : CriticLog m :=
  let generatedLastCol := g.generate data_batch (get_test_mask data_batch) noiseTest
  let generated_data := g.generate data_batch mask noise
  let adjusted_generated_data :=
    tadd (hadamard generated_data (oneMinus mask)) (hadamard mask data_batch)
  let generated_critics_mean := reduceMean (criticise_fn adjusted_generated_data hints)
  let genuine_critics_mean := reduceMean (criticise_fn data_batch hints)
  { know_value_regeneration_error :=
      get_total_generator_truth_error data_batch generated_data mask
    critic_loss := generated_critics_mean - genuine_critics_mean
    genuine_critics_mean := genuine_critics_mean
    generated_critics_mean := generated_critics_mean
    hidden_value_generation_errors :=
      get_generated_value_errors mask hint_mask data_batch generated_data
    generated_last_column_distribution := get_last_column generatedLastCol
    actual_last_column_distribution := get_last_column data_batch }

/-! ## Concrete example instances -/

/-- A concrete 2×2 data batch with values in `[0,1)`. -/
def exX : Tensor 2 2 := fun i j => ((i : ℕ) : ℚ) / 4 + ((j : ℕ) : ℚ) / 8

/-- A concrete 0/1 mask hiding exactly the entry at row 0, column 1. -/
def exMask : Tensor 2 2 := fun i j => if (i : ℕ) = 0 ∧ (j : ℕ) = 1 then 0 else 1

/-- A concrete 0/1 hint mask, zero on row 0. -/
def exHintMask : Tensor 2 2 := fun i _ => if (i : ℕ) = 0 then 0 else 1

/-- A concrete uniform-noise draw. -/
def exNoise : Tensor 2 2 := fun _ _ => 1 / 2

/-- A second concrete noise draw, for the test-mask generation. -/
def exNoiseTest : Tensor 2 2 := fun _ _ => 1 / 4

/-- Concrete hints. -/
def exHints : Tensor 2 2 := fun _ _ => 1 / 2

/-- A concrete Keras-model body with one scalar trainable parameter. -/
def exModel : KerasModel ℚ 2 2 := ⟨1, fun p t i j => p * t i (Fin.castAdd 2 j)⟩

/-- A concrete generator wrapping `exModel`. -/
def exGen : myGenerator ℚ 2 2 := ⟨.keras exModel⟩

/-- A concrete (finite-difference) stand-in for `tape.gradient`. -/
def exGrad : (ℚ → ℚ) → ℚ → ℚ := fun f p => f (p + 1) - f p

/-- A concrete stand-in for `tf.math.log`. -/
def exLog : ℚ → ℚ := fun d => d - 1

/-- A concrete optimizer with a scalar slot. -/
def exOpt : Optimizer ℚ ℚ ℚ := ⟨0, fun s gr p => (s + gr, p - gr)⟩

/-- A concrete discriminator returning its input. -/
def exDisc : Tensor 2 2 → Tensor 2 2 → Tensor 2 2 := fun a _ => a

/-- A concrete critic producing a 1×1 score. -/
def exCrit : Tensor 2 2 → Tensor 2 2 → Tensor 1 1 := fun a _ _ _ => a 0 0

/-- A concrete all-zero 2×2 tensor. -/
def exZero : Tensor 2 2 := fun _ _ => 0

/-- A concrete fallible body that always succeeds with `exZero`. -/
def exModelE : KerasModelE String ℚ 2 2 := ⟨1, fun _ _ => .ok exZero⟩

/-- A concrete fallible gradient stand-in. -/
def exGradE : (ℚ → Except String ℚ) → ℚ → Except String ℚ := fun _ _ => .ok 0

/-- A concrete fallible optimizer. -/
def exOptE : OptimizerE String ℚ ℚ ℚ := ⟨0, fun s gr p => .ok (s + gr, p - gr)⟩

/-- A concrete discriminator that always raises. -/
def exDiscE : Tensor 2 2 → Tensor 2 2 → Except String (Tensor 2 2) :=
  fun _ _ => .error "shape mismatch"

/-- A concrete critic that always raises. -/
def exCritE : Tensor 2 2 → Tensor 2 2 → Except String (Tensor 1 1) :=
  fun _ _ => .error "shape mismatch"

/-- A concrete fallible body that always raises. -/
def exModelErrE : KerasModelE String ℚ 2 2 := ⟨1, fun _ _ => .error "body failed"⟩

/-- A concrete discriminator that always succeeds, returning its input. -/
def exDiscOkE : Tensor 2 2 → Tensor 2 2 → Except String (Tensor 2 2) :=
  fun a _ => .ok a

/-- A concrete all-zero 1×1 critic score. -/
def exScoreZero : Tensor 1 1 := fun _ _ => 0

/-- A concrete critic that always succeeds with `exScoreZero`. -/
def exCritOkE : Tensor 2 2 → Tensor 2 2 → Except String (Tensor 1 1) :=
  fun _ _ => .ok exScoreZero

/-- A concrete optimizer whose `apply_gradients` always raises. -/
def exOptErrE : OptimizerE String ℚ ℚ ℚ := ⟨0, fun _ _ _ => .error "optimizer failed"⟩

/-- A concrete all-ones (fully observed) 2×2 mask. -/
def exOnes : Tensor 2 2 := fun _ _ => 1

/-! ## Theorems -/

/-- A finite sum of entrywise-nonnegative tensor entries vanishes exactly
when every entry vanishes. -/
theorem reduceSum_eq_zero_iff {m n : ℕ} (t : Tensor m n)
    (h : ∀ i j, 0 ≤ t i j) :
    reduceSum t = 0 ↔ ∀ i j, t i j = 0 := by
  unfold reduceSum
  rw [Finset.sum_eq_zero_iff_of_nonneg
    (fun i _ => Finset.sum_nonneg (fun j _ => h i j))]
  constructor
  · intro hz i j
    have hi := hz i (Finset.mem_univ i)
    rw [Finset.sum_eq_zero_iff_of_nonneg (fun j _ => h i j)] at hi
    exact hi j (Finset.mem_univ j)
  · intro hz i _
    exact Finset.sum_eq_zero (fun j _ => hz i j)

/-- C1: for a 0/1 mask, `generate(x, mask)` feeds the body the columnwise
concatenation of `mask*x + (1-mask)*U` with `mask` — so each observed
entry (mask 1) keeps its value from `x` and each hidden entry (mask 0) is
the uniform draw `U` — and returns the body's output on it; the left half
of the concatenation carries the blended entries and the right half
carries the mask (the result has the shape of `x` by the typing of the
body). -/
theorem C1_generate_noise_concat_body {P : Type} {m n : ℕ}
    (g : myGenerator P m n) (x mask noise : Tensor m n)
    (h01 : ∀ i j, mask i j = 0 ∨ mask i j = 1) :
    g.generate x mask noise =
      g.body.apply (concatCols
        (fun i j => if mask i j = 1 then x i j else noise i j) mask) ∧
    (∀ (i : Fin m) (j : Fin n),
      concatCols (fun i' j' => if mask i' j' = 1 then x i' j' else noise i' j') mask
        i (Fin.castAdd n j) = if mask i j = 1 then x i j else noise i j) ∧
    (∀ (i : Fin m) (j : Fin n),
      concatCols (fun i' j' => if mask i' j' = 1 then x i' j' else noise i' j') mask
        i (Fin.natAdd n j) = mask i j) := by
  refine ⟨?_, ?_, ?_⟩
  · have key : tadd (hadamard mask x) (hadamard (oneMinus mask) noise)
        = (fun i j => if mask i j = 1 then x i j else noise i j) := by
      funext i j
      rcases h01 i j with h0 | h1
      · simp [tadd, hadamard, oneMinus, h0]
      · simp [tadd, hadamard, oneMinus, h1]
    unfold myGenerator.generate generate
    rw [key]
  · intro i j
    unfold concatCols
    have hj : ((Fin.castAdd n j : Fin (n + n)) : ℕ) < n := j.isLt
    simp only [hj, dif_pos]
    rfl
  · intro i j
    unfold concatCols
    have hj : ¬ ((Fin.natAdd n j : Fin (n + n)) : ℕ) < n := by
      simp [Fin.natAdd]
    simp only [hj, dif_neg, not_false_iff]
    congr 1
    ext
    simp [Fin.natAdd]

/-- C4: both training methods take the gradient of a loss that is a
function of the body's trainable variables alone, apply exactly one
`apply_gradients` step to exactly those variables, and change nothing
else: the body's call function and the optimizer's `apply_gradients` come
back unchanged, the new parameters and optimizer slots are exactly the two
components of that single step, and the returned loss is the loss at the
pre-step parameters.  (All inputs are immutable values of the embedding;
the scoring function is passed through untouched.) -/
theorem C4_single_step_frame {P S G : Type} {m n p q : ℕ}
    (b : KerasModel P m n) (grad : (P → ℚ) → P → G) (log : ℚ → ℚ)
    (data_batch mask hints noise : Tensor m n)
    (discriminate_fn : Tensor m n → Tensor m n → Tensor m n)
    (criticise_fn : Tensor m n → Tensor m n → Tensor p q)
    (optimizer : Optimizer S G P) (alpha : ℚ) :
    (let dLossAt : P → ℚ := fun p' =>
      get_generator_logLoss log
        (discriminate_fn
          (tadd (hadamard (generate (b.call p') data_batch mask noise) (oneMinus mask))
            (hadamard mask data_batch)) hints) mask
     let step := optimizer.applyGradients optimizer.state (grad dLossAt b.params) b.params
     let r := train_with_discrimination b grad log data_batch mask hints noise
       discriminate_fn optimizer alpha
     r.1 = dLossAt b.params ∧ r.2.1.call = b.call ∧ r.2.1.params = step.2 ∧
       r.2.2.state = step.1 ∧ r.2.2.applyGradients = optimizer.applyGradients) ∧
    (let cLossAt : P → ℚ := fun p' =>
      Neg.neg (reduceMean
        (criticise_fn
          (tadd (hadamard (generate (b.call p') data_batch mask noise) (oneMinus mask))
            (hadamard mask data_batch)) hints))
     let step := optimizer.applyGradients optimizer.state (grad cLossAt b.params) b.params
     let r := train_with_critic b grad data_batch mask hints noise
       criticise_fn optimizer alpha
     r.1 = cLossAt b.params ∧ r.2.1.call = b.call ∧ r.2.1.params = step.2 ∧
       r.2.2.state = step.1 ∧ r.2.2.applyGradients = optimizer.applyGradients) :=
  ⟨⟨rfl, rfl, rfl, rfl, rfl⟩, ⟨rfl, rfl, rfl, rfl, rfl⟩⟩

/-- C9: both training methods ignore their `alpha` argument entirely —
two calls identical but for `alpha` return the same loss and the same
updated generator and optimizer. -/
theorem C9_alpha_unused {P S G : Type} {m n p q : ℕ}
    (b : KerasModel P m n) (grad : (P → ℚ) → P → G) (log : ℚ → ℚ)
    (data_batch mask hints noise : Tensor m n)
    (discriminate_fn : Tensor m n → Tensor m n → Tensor m n)
    (criticise_fn : Tensor m n → Tensor m n → Tensor p q)
    (optimizer : Optimizer S G P) (a1 a2 : ℚ) :
    train_with_discrimination b grad log data_batch mask hints noise
        discriminate_fn optimizer a1 =
      train_with_discrimination b grad log data_batch mask hints noise
        discriminate_fn optimizer a2 ∧
    train_with_critic b grad data_batch mask hints noise
        criticise_fn optimizer a1 =
      train_with_critic b grad data_batch mask hints noise
        criticise_fn optimizer a2 :=
  ⟨rfl, rfl⟩

/-- C10: `save(path)` on a Keras-bodied generator is exactly the body's
own `save` applied to `path`; `load(path)` replaces the body with the
model the framework loader returns for `path`; and `save` on a
default-constructed generator — whose body is the plain function
`generate_random` — raises `AttributeError` because a plain function has
no `save` attribute. -/
theorem C10_save_load_delegation {P F : Type} {m n : ℕ}
    (g : myGenerator P m n) (k : KerasModel P m n)
    (kerasSave : KerasModel P m n → String → F)
    (load_model : String → KerasModel P m n)
    (path : String) (noise : Tensor m n) :
    myGenerator.save (⟨.keras k⟩ : myGenerator P m n) kerasSave path
        = .ok (kerasSave k path) ∧
    g.load load_model path = ⟨.keras (load_model path)⟩ ∧
    myGenerator.save (myGenerator.defaultInit noise : myGenerator P m n) kerasSave path
        = .error (.attributeError "save") :=
  ⟨rfl, rfl, rfl⟩

/-- C2: for a 0/1 mask with at least one missing entry,
`train_with_discrimination` blends the generated output with the ground
truth as `generated*(1-mask) + mask*data_batch`, scores the blend with
`discriminate_fn(blend, hints)`, and returns
`-sum((1-mask) * log(discriminations + 1e-8)) / sum(1-mask)` — the
negative log-likelihood over the missing entries, averaged over their
count. -/
theorem C2_discrimination_loss_formula {P S G : Type} {m n : ℕ}
    (b : KerasModel P m n) (grad : (P → ℚ) → P → G) (log : ℚ → ℚ)
    (data_batch mask hints noise : Tensor m n)
    (discriminate_fn : Tensor m n → Tensor m n → Tensor m n)
    (optimizer : Optimizer S G P) (alpha : ℚ)
    (h01 : ∀ i j, mask i j = 0 ∨ mask i j = 1)
    (h0 : ∃ i j, mask i j = 0) :
    (train_with_discrimination b grad log data_batch mask hints noise
        discriminate_fn optimizer alpha).1 =
      -(∑ i, ∑ j, (1 - mask i j) *
          log (discriminate_fn
              (fun i' j' =>
                generate (b.call b.params) data_batch mask noise i' j' * (1 - mask i' j')
                  + mask i' j' * data_batch i' j') hints i j
            + 1 / 100000000))
        / (∑ i, ∑ j, (1 - mask i j)) :=
  rfl

/-- C3: `train_with_critic` blends the generated output with the ground
truth as `generated*(1-mask) + mask*data_batch`, scores the blend with
`criticise_fn(blend, hints)`, and returns the negated mean of all critic
scores. -/
theorem C3_critic_loss_formula {P S G : Type} {m n p q : ℕ}
    (b : KerasModel P m n) (grad : (P → ℚ) → P → G)
    (data_batch mask hints noise : Tensor m n)
    (criticise_fn : Tensor m n → Tensor m n → Tensor p q)
    (optimizer : Optimizer S G P) (alpha : ℚ)
    (h01 : ∀ i j, mask i j = 0 ∨ mask i j = 1) :
    (train_with_critic b grad data_batch mask hints noise
        criticise_fn optimizer alpha).1 =
      -((∑ i, ∑ j, criticise_fn
            (fun i' j' =>
              generate (b.call b.params) data_batch mask noise i' j' * (1 - mask i' j')
                + mask i' j' * data_batch i' j') hints i j)
          / ((p : ℚ) * (q : ℚ))) :=
  rfl

/-- C5: no method of the Generator catches or transforms exceptions — an
exception raised by the body, by the supplied scoring function, or by the
optimizer propagates unchanged out of `train_with_discrimination` and
`train_with_critic`, and when it is raised before the optimizer step (by
the body or by the scoring function) no updated generator or optimizer is
produced, because `apply_gradients` is never reached. -/
theorem C5_exception_propagation {ε P S G : Type} {m n p q : ℕ}
    (b : KerasModelE ε P m n) (grad : (P → Except ε ℚ) → P → Except ε G)
    (log : ℚ → ℚ) (data_batch mask hints noise : Tensor m n)
    (discriminate_fn : Tensor m n → Tensor m n → Except ε (Tensor m n))
    (criticise_fn : Tensor m n → Tensor m n → Except ε (Tensor p q))
    (optimizer : OptimizerE ε S G P) (alpha : ℚ) (e : ε)
    (gd d : Tensor m n) (c : Tensor p q) (gs : G) :
    (b.call b.params (concatCols
        (tadd (hadamard mask data_batch) (hadamard (oneMinus mask) noise)) mask)
      = .error e →
      train_with_discriminationE b grad log data_batch mask hints noise
          discriminate_fn optimizer alpha = .error e ∧
      train_with_criticE b grad data_batch mask hints noise
          criticise_fn optimizer alpha = .error e) ∧
    (b.call b.params (concatCols
        (tadd (hadamard mask data_batch) (hadamard (oneMinus mask) noise)) mask)
      = .ok gd →
      (discriminate_fn
          (tadd (hadamard gd (oneMinus mask)) (hadamard mask data_batch)) hints
        = .error e →
        train_with_discriminationE b grad log data_batch mask hints noise
          discriminate_fn optimizer alpha = .error e) ∧
      (criticise_fn
          (tadd (hadamard gd (oneMinus mask)) (hadamard mask data_batch)) hints
        = .error e →
        train_with_criticE b grad data_batch mask hints noise
          criticise_fn optimizer alpha = .error e)) ∧
    (b.call b.params (concatCols
        (tadd (hadamard mask data_batch) (hadamard (oneMinus mask) noise)) mask)
      = .ok gd →
      discriminate_fn
          (tadd (hadamard gd (oneMinus mask)) (hadamard mask data_batch)) hints
        = .ok d →
      criticise_fn
          (tadd (hadamard gd (oneMinus mask)) (hadamard mask data_batch)) hints
        = .ok c →
      (∀ f : P → Except ε ℚ, grad f b.params = .ok gs) →
      (∀ (s' : S) (g' : G) (p' : P),
        optimizer.applyGradients s' g' p' = .error e) →
      train_with_discriminationE b grad log data_batch mask hints noise
          discriminate_fn optimizer alpha = .error e ∧
      train_with_criticE b grad data_batch mask hints noise
          criticise_fn optimizer alpha = .error e) := by
  refine ⟨fun hbody => ⟨?_, ?_⟩, fun hbody => ⟨fun hdisc => ?_, fun hcrit => ?_⟩,
    fun hbody hdisc hcrit hgrad hopt => ⟨?_, ?_⟩⟩
  · unfold train_with_discriminationE
    simp only [hbody]
  · unfold train_with_criticE
    simp only [hbody]
  · unfold train_with_discriminationE
    simp only [hbody, hdisc]
  · unfold train_with_criticE
    simp only [hbody, hcrit]
  · unfold train_with_discriminationE
    simp only [hbody, hdisc, hgrad, hopt]
  · unfold train_with_criticE
    simp only [hbody, hcrit, hgrad, hopt]

/-- C6 counterexample: the claim's clause "a fully observed batch makes
every train_* loss undefined" is false of the code.  `exOnes` is a fully
observed (all-ones) mask, yet the loss returned by `train_with_critic` is
the negated mean of the critics of the data batch itself (the blend
degenerates to `data_batch`), whose only division is by the number of
critic scores — here `1 * 1`, which is nonzero — so no division by a
vanishing mask sum occurs on this path. -/
theorem C6_fully_observed_critic_loss_defined :
    (∀ i j, exOnes i j = 1) ∧
    (train_with_critic exModel exGrad exX exOnes exHints exNoise
        exCrit exOpt 1).1
      = -((∑ i, ∑ j, exCrit exX exHints i j) / (((1 : ℕ) : ℚ) * ((1 : ℕ) : ℚ))) ∧
    ((1 : ℕ) : ℚ) * ((1 : ℕ) : ℚ) ≠ 0 := by
  refine ⟨by decide, ?_, by norm_num⟩
  have hblend : tadd
      (hadamard (generate (exModel.call exModel.params) exX exOnes exNoise)
        (oneMinus exOnes))
      (hadamard exOnes exX) = exX := by
    funext i j
    simp [tadd, hadamard, oneMinus, exOnes]
  have hstep : (train_with_critic exModel exGrad exX exOnes exHints exNoise
      exCrit exOpt 1).1
      = Neg.neg (reduceMean (exCrit (tadd
          (hadamard (generate (exModel.call exModel.params) exX exOnes exNoise)
            (oneMinus exOnes))
          (hadamard exOnes exX)) exHints)) := rfl
  rw [hstep, hblend]
  rfl

/-- C6 (amended): the divisions in the loss and error formulas are
unguarded — the divisor `sum(1-mask)` of `get_generator_logLoss` vanishes
exactly when the 0/1 mask is fully observed (all ones), so the
`train_with_discrimination` loss divides by zero there, and the divisor
`sum(mask)` of `get_total_generator_truth_error` vanishes exactly when no
entry is observed (all zeros); the `train_with_critic` loss, however,
involves no mask-sum division: on a fully observed batch it is the negated
mean of the critics of the data batch itself, divided only by the number
of critic scores. -/
theorem C6_unguarded_divisors_amended {P S G : Type} {m n p q : ℕ}
    (b : KerasModel P m n) (grad : (P → ℚ) → P → G)
    (data_batch mask hints noise : Tensor m n)
    (criticise_fn : Tensor m n → Tensor m n → Tensor p q)
    (optimizer : Optimizer S G P) (alpha : ℚ)
    (h01 : ∀ i j, mask i j = 0 ∨ mask i j = 1) :
    (reduceSum (oneMinus mask) = 0 ↔ ∀ i j, mask i j = 1) ∧
    (reduceSum mask = 0 ↔ ∀ i j, mask i j = 0) ∧
    ((∀ i j, mask i j = 1) →
      (train_with_critic b grad data_batch mask hints noise
          criticise_fn optimizer alpha).1
        = -((∑ i, ∑ j, criticise_fn data_batch hints i j)
            / ((p : ℚ) * (q : ℚ)))) := by
  refine ⟨?_, ?_, ?_⟩
  · rw [reduceSum_eq_zero_iff (oneMinus mask)
      (fun i j => by rcases h01 i j with h | h <;> norm_num [oneMinus, h])]
    constructor
    · intro hz i j
      have hij := hz i j
      unfold oneMinus at hij
      linarith
    · intro hz i j
      unfold oneMinus
      rw [hz i j]
      ring
  · exact reduceSum_eq_zero_iff mask
      (fun i j => by rcases h01 i j with h | h <;> norm_num [h])
  · intro hall
    have hblend : tadd
        (hadamard (generate (b.call b.params) data_batch mask noise)
          (oneMinus mask))
        (hadamard mask data_batch) = data_batch := by
      funext i j
      simp [tadd, hadamard, oneMinus, hall i j]
    have hstep : (train_with_critic b grad data_batch mask hints noise
        criticise_fn optimizer alpha).1
        = Neg.neg (reduceMean (criticise_fn (tadd
            (hadamard (generate (b.call b.params) data_batch mask noise)
              (oneMinus mask))
            (hadamard mask data_batch)) hints)) := rfl
    rw [hstep, hblend]
    rfl

/-- C7: for 0/1 `mask` and `hint_mask`, the reconstruction error on known
values logged by both performance-log methods is
`sum(mask * (data_batch - generated_data)^2) / sum(mask)` — the mean
squared difference over the observed entries — and the logged hidden value
generation errors are exactly the per-entry differences
`generated_x - x` at the positions with `mask = 0` and `hint_mask = 0`,
in row-major order. -/
theorem C7_logged_error_statistics {P : Type} {m n p q : ℕ}
    (g : myGenerator P m n) (log : ℚ → ℚ)
    (data_batch mask hints hint_mask : Tensor m n)
    (discriminate_fn : Tensor m n → Tensor m n → Tensor m n)
    (criticise_fn : Tensor m n → Tensor m n → Tensor p q)
    (noiseTest noise : Tensor m n)
    (hm : ∀ i j, mask i j = 0 ∨ mask i j = 1)
    (hh : ∀ i j, hint_mask i j = 0 ∨ hint_mask i j = 1) :
    (performance_log_with_discrimination g log data_batch mask hints hint_mask
        discriminate_fn noiseTest noise).know_value_regeneration_error
      = (∑ i, ∑ j, mask i j * (data_batch i j - g.generate data_batch mask noise i j) ^ 2)
        / (∑ i, ∑ j, mask i j) ∧
    (performance_log_with_critic g data_batch mask hints hint_mask
        criticise_fn noiseTest noise).know_value_regeneration_error
      = (∑ i, ∑ j, mask i j * (data_batch i j - g.generate data_batch mask noise i j) ^ 2)
        / (∑ i, ∑ j, mask i j) ∧
    (performance_log_with_discrimination g log data_batch mask hints hint_mask
        discriminate_fn noiseTest noise).hidden_value_generation_errors
      = ((List.finRange m).flatMap fun i => (List.finRange n).filterMap fun j =>
          if mask i j = 0 ∧ hint_mask i j = 0
          then some (g.generate data_batch mask noise i j - data_batch i j) else none) ∧
    (performance_log_with_critic g data_batch mask hints hint_mask
        criticise_fn noiseTest noise).hidden_value_generation_errors
      = ((List.finRange m).flatMap fun i => (List.finRange n).filterMap fun j =>
          if mask i j = 0 ∧ hint_mask i j = 0
          then some (g.generate data_batch mask noise i j - data_batch i j) else none) := by
  have herr : get_generated_value_errors mask hint_mask data_batch
      (g.generate data_batch mask noise)
      = ((List.finRange m).flatMap fun i => (List.finRange n).filterMap fun j =>
          if mask i j = 0 ∧ hint_mask i j = 0
          then some (g.generate data_batch mask noise i j - data_batch i j) else none) := by
    unfold get_generated_value_errors
    refine List.flatMap_congr (fun i _ => ?_)
    refine List.filterMap_congr (fun j _ => ?_)
    rcases hm i j with h1 | h1 <;> rcases hh i j with h2 | h2 <;>
      norm_num [h1, h2]
  exact ⟨rfl, rfl, herr, herr⟩

/-- C8: the designated test column is the last one — `get_test_mask(x)`
is 1 everywhere except 0 in the last column of every row,
`get_last_column(x)` is the last column of `x`, and the logged generated
last column distribution is the last column of
`generate(data_batch, get_test_mask(data_batch))`, a sample generated with
exactly the last column hidden. -/
theorem C8_last_column_diagnostics {P : Type} {m n : ℕ}
    (g : myGenerator P m n) (log : ℚ → ℚ)
    (x data_batch mask hints hint_mask : Tensor m n)
    (discriminate_fn : Tensor m n → Tensor m n → Tensor m n)
    (noiseTest noise : Tensor m n) (hn : 0 < n) :
    (∀ (i : Fin m) (j : Fin n),
      get_test_mask x i j = if (j : ℕ) = n - 1 then 0 else 1) ∧
    (∀ (i : Fin m) (j : Fin 1),
      get_last_column x i j = x i ⟨n - 1, Nat.sub_lt hn Nat.one_pos⟩) ∧
    (performance_log_with_discrimination g log data_batch mask hints hint_mask
        discriminate_fn noiseTest noise).generated_last_column_distribution
      = get_last_column (g.generate data_batch (get_test_mask data_batch) noiseTest) := by
  refine ⟨?_, ?_, rfl⟩
  · intro i j
    unfold get_test_mask
    rcases Nat.lt_or_ge (j : ℕ) (n - 1) with h | h
    · have hne : ¬ (j : ℕ) = n - 1 := by omega
      simp [h, hne]
    · have hj : (j : ℕ) = n - 1 := by
        have := j.isLt
        omega
      have hlt : ¬ (j : ℕ) < n - 1 := by omega
      simp [hj, hlt]
  · intro i j
    unfold get_last_column
    have h : n - 1 < n := Nat.sub_lt hn Nat.one_pos
    simp [h]

/-! ## Witnesses -/

/-- Witness for C1 at the concrete example instance. -/
theorem C1_generate_noise_concat_body_witness :
    (∀ i j, exMask i j = 0 ∨ exMask i j = 1) ∧
    (exGen.generate exX exMask exNoise =
      exGen.body.apply (concatCols
        (fun i j => if exMask i j = 1 then exX i j else exNoise i j) exMask) ∧
    (∀ (i : Fin 2) (j : Fin 2),
      concatCols (fun i' j' => if exMask i' j' = 1 then exX i' j' else exNoise i' j')
        exMask i (Fin.castAdd 2 j) = if exMask i j = 1 then exX i j else exNoise i j) ∧
    (∀ (i : Fin 2) (j : Fin 2),
      concatCols (fun i' j' => if exMask i' j' = 1 then exX i' j' else exNoise i' j')
        exMask i (Fin.natAdd 2 j) = exMask i j)) :=
  ⟨by decide, C1_generate_noise_concat_body exGen exX exMask exNoise (by decide)⟩

/-- Witness for C2 at the concrete example instance. -/
theorem C2_discrimination_loss_formula_witness :
    (∀ i j, exMask i j = 0 ∨ exMask i j = 1) ∧ (∃ i j, exMask i j = 0) ∧
    (train_with_discrimination exModel exGrad exLog exX exMask exHints exNoise
        exDisc exOpt 1).1 =
      -(∑ i, ∑ j, (1 - exMask i j) *
          exLog (exDisc
              (fun i' j' =>
                generate (exModel.call exModel.params) exX exMask exNoise i' j'
                    * (1 - exMask i' j')
                  + exMask i' j' * exX i' j') exHints i j
            + 1 / 100000000))
        / (∑ i, ∑ j, (1 - exMask i j)) :=
  ⟨by decide, ⟨0, 1, by decide⟩,
    C2_discrimination_loss_formula exModel exGrad exLog exX exMask exHints exNoise
      exDisc exOpt 1 (by decide) ⟨0, 1, by decide⟩⟩

/-- Witness for C3 at the concrete example instance. -/
theorem C3_critic_loss_formula_witness :
    (∀ i j, exMask i j = 0 ∨ exMask i j = 1) ∧
    (train_with_critic exModel exGrad exX exMask exHints exNoise
        exCrit exOpt 1).1 =
      -((∑ i, ∑ j, exCrit
            (fun i' j' =>
              generate (exModel.call exModel.params) exX exMask exNoise i' j'
                  * (1 - exMask i' j')
                + exMask i' j' * exX i' j') exHints i j)
          / (((1 : ℕ) : ℚ) * ((1 : ℕ) : ℚ))) :=
  ⟨by decide,
    C3_critic_loss_formula exModel exGrad exX exMask exHints exNoise
      exCrit exOpt 1 (by decide)⟩

/-- Witness for C5, exercising all three error sources at concrete
instances: a raising body, a raising scoring function after a successful
body, and a raising optimizer after successful body, scoring and
gradient. -/
theorem C5_exception_propagation_witness :
    (exModelErrE.call exModelErrE.params (concatCols
        (tadd (hadamard exMask exX) (hadamard (oneMinus exMask) exNoise)) exMask)
      = .error "body failed") ∧
    (train_with_discriminationE exModelErrE exGradE exLog exX exMask exHints exNoise
        exDiscE exOptE 1 = .error "body failed" ∧
      train_with_criticE exModelErrE exGradE exX exMask exHints exNoise
        exCritE exOptE 1 = .error "body failed") ∧
    (exModelE.call exModelE.params (concatCols
        (tadd (hadamard exMask exX) (hadamard (oneMinus exMask) exNoise)) exMask)
      = .ok exZero) ∧
    (exDiscE (tadd (hadamard exZero (oneMinus exMask)) (hadamard exMask exX)) exHints
      = .error "shape mismatch") ∧
    (exCritE (tadd (hadamard exZero (oneMinus exMask)) (hadamard exMask exX)) exHints
      = .error "shape mismatch") ∧
    (train_with_discriminationE exModelE exGradE exLog exX exMask exHints exNoise
        exDiscE exOptE 1 = .error "shape mismatch" ∧
      train_with_criticE exModelE exGradE exX exMask exHints exNoise
        exCritE exOptE 1 = .error "shape mismatch") ∧
    (exOptErrE.applyGradients 0 0 1 = .error "optimizer failed") ∧
    (train_with_discriminationE exModelE exGradE exLog exX exMask exHints exNoise
        exDiscOkE exOptErrE 1 = .error "optimizer failed" ∧
      train_with_criticE exModelE exGradE exX exMask exHints exNoise
        exCritOkE exOptErrE 1 = .error "optimizer failed") := by
  have hA := C5_exception_propagation exModelErrE exGradE exLog exX exMask exHints
    exNoise exDiscE exCritE exOptE 1 "body failed" exZero exZero exScoreZero 0
  have hB := C5_exception_propagation exModelE exGradE exLog exX exMask exHints
    exNoise exDiscE exCritE exOptE 1 "shape mismatch" exZero exZero exScoreZero 0
  have hC := C5_exception_propagation exModelE exGradE exLog exX exMask exHints
    exNoise exDiscOkE exCritOkE exOptErrE 1 "optimizer failed" exZero
    (tadd (hadamard exZero (oneMinus exMask)) (hadamard exMask exX)) exScoreZero 0
  exact ⟨rfl, hA.1 rfl, rfl, rfl, rfl,
    ⟨(hB.2.1 rfl).1 rfl, (hB.2.1 rfl).2 rfl⟩, rfl,
    hC.2.2 rfl rfl rfl (fun _ => rfl) (fun _ _ _ => rfl)⟩

/-- Witness for C6 (amended) at the fully observed concrete mask,
exercising both the 0/1 hypothesis and the fully-observed implication. -/
theorem C6_unguarded_divisors_amended_witness :
    (∀ i j, exOnes i j = 0 ∨ exOnes i j = 1) ∧
    (∀ i j, exOnes i j = 1) ∧
    ((reduceSum (oneMinus exOnes) = 0 ↔ ∀ i j, exOnes i j = 1) ∧
     (reduceSum exOnes = 0 ↔ ∀ i j, exOnes i j = 0) ∧
     (train_with_critic exModel exGrad exX exOnes exHints exNoise
        exCrit exOpt 1).1
       = -((∑ i, ∑ j, exCrit exX exHints i j)
            / (((1 : ℕ) : ℚ) * ((1 : ℕ) : ℚ)))) := by
  have h := C6_unguarded_divisors_amended exModel exGrad exX exOnes exHints
    exNoise exCrit exOpt 1 (by decide)
  exact ⟨by decide, by decide, h.1, h.2.1, h.2.2 (by decide)⟩

/-- Witness for C7 at the concrete example instance. -/
theorem C7_logged_error_statistics_witness :
    (∀ i j, exMask i j = 0 ∨ exMask i j = 1) ∧
    (∀ i j, exHintMask i j = 0 ∨ exHintMask i j = 1) ∧
    ((performance_log_with_discrimination exGen exLog exX exMask exHints exHintMask
        exDisc exNoiseTest exNoise).know_value_regeneration_error
      = (∑ i, ∑ j, exMask i j * (exX i j - exGen.generate exX exMask exNoise i j) ^ 2)
        / (∑ i, ∑ j, exMask i j) ∧
    (performance_log_with_critic exGen exX exMask exHints exHintMask
        exCrit exNoiseTest exNoise).know_value_regeneration_error
      = (∑ i, ∑ j, exMask i j * (exX i j - exGen.generate exX exMask exNoise i j) ^ 2)
        / (∑ i, ∑ j, exMask i j) ∧
    (performance_log_with_discrimination exGen exLog exX exMask exHints exHintMask
        exDisc exNoiseTest exNoise).hidden_value_generation_errors
      = ((List.finRange 2).flatMap fun i => (List.finRange 2).filterMap fun j =>
          if exMask i j = 0 ∧ exHintMask i j = 0
          then some (exGen.generate exX exMask exNoise i j - exX i j) else none) ∧
    (performance_log_with_critic exGen exX exMask exHints exHintMask
        exCrit exNoiseTest exNoise).hidden_value_generation_errors
      = ((List.finRange 2).flatMap fun i => (List.finRange 2).filterMap fun j =>
          if exMask i j = 0 ∧ exHintMask i j = 0
          then some (exGen.generate exX exMask exNoise i j - exX i j) else none)) :=
  ⟨by decide, by decide,
    C7_logged_error_statistics exGen exLog exX exMask exHints exHintMask
      exDisc exCrit exNoiseTest exNoise (by decide) (by decide)⟩

/-- Witness for C8 at the concrete example instance. -/
theorem C8_last_column_diagnostics_witness :
    0 < 2 ∧
    ((∀ (i : Fin 2) (j : Fin 2),
      get_test_mask exX i j = if (j : ℕ) = 2 - 1 then 0 else 1) ∧
    (∀ (i : Fin 2) (j : Fin 1),
      get_last_column exX i j = exX i ⟨2 - 1, Nat.sub_lt (by norm_num) Nat.one_pos⟩) ∧
    (performance_log_with_discrimination exGen exLog exX exMask exHints exHintMask
        exDisc exNoiseTest exNoise).generated_last_column_distribution
      = get_last_column (exGen.generate exX (get_test_mask exX) exNoiseTest)) :=
  ⟨by norm_num,
    C8_last_column_diagnostics exGen exLog exX exX exMask exHints exHintMask
      exDisc exNoiseTest exNoise (by norm_num)⟩

end GAIN
